import Mathlib

/-!
Verification development for the ml-model-dashboard repository.

The repository contains two small pipelines (a customer-churn random-forest
classifier and a house-price linear regressor), each with a synthetic-data
generator, a trainer that persists a model file and a metadata file, a loader,
and a predictor.  Python floats are modelled as rationals; Python dicts that
carry prediction results are modelled as association lists from strings to a
value type; the numpy global pseudo-random generator is modelled as a
deterministic stream of draws that is a function of the seed only.
-/

namespace MLDash

/-- A Python dict value appearing in a prediction-result dictionary. -/
inductive PyVal where
  | int (i : ℤ)
  | num (q : ℚ)
  | str (s : String)
deriving DecidableEq, Repr

/-- Lookup of a key in an association list, mirroring access to a Python
dict (keys are unique in a dict, first match wins here). -/
def lookupVal (d : List (String × ℚ)) (k : String) : Option ℚ :=
  match d with
  | [] => none
  | p :: rest => if k = p.1 then some p.2 else lookupVal rest k

/-- Column selection `pd.DataFrame([customer_data])[cols]` from the test
scripts: every requested column must be present (otherwise pandas raises a
KeyError naming the missing columns, here an `Except.error`); columns of the
frame that are not requested are silently dropped. -/
def reindex (cols : List String) (d : List (String × ℚ)) : Except String (List ℚ) :=
  if cols.filter (fun c => (lookupVal d c).isNone) = [] then
    Except.ok (cols.filterMap (lookupVal d))
  else
    Except.error (String.intercalate ", "
      (cols.filter (fun c => (lookupVal d c).isNone)) ++ " not in index")

namespace Churn

/-- Opaque fitted random-forest classifier (`sklearn` black box): `cls` is
`model.predict(df)[0]`, `proba` is `model.predict_proba(df)[0]` as the pair
(probability of class 0, probability of class 1). -/
structure RFModel where
  cls : List ℚ → ℤ
  proba : List ℚ → ℚ × ℚ

/-- The metadata dict written by `train_churn_model.py` as `model_info.pkl`
(`feature_info` in `train_model`, lines 137-142). -/
structure ChurnInfo where
  feature_names : List String
  model_type : String
  accuracy : ℚ
  feature_importance : List (String × ℚ)

/-- Risk-level derivation from `test_churn_model.py` lines 37-43:
`if churn_probability > 0.7: "High" elif churn_probability > 0.3: "Medium"
else: "Low"`. -/
def riskLevel (p : ℚ) : String :=
  if p > 7/10 then "High"
  else if p > 3/10 then "Medium"
  else "Low"

/-- `predict_churn` from `test_churn_model.py` lines 25-54: build a one-row
frame from the customer dict, select the trained feature columns in order,
run the model, derive the risk level, and return the result dict; any
failure inside the try block is returned as a dict with the single key
`error`. -/
def predict_churn (model : RFModel) (info : ChurnInfo)
    (customer : List (String × ℚ)) : List (String × PyVal) :=
  match reindex info.feature_names customer with
  | Except.error e => [("error", PyVal.str e)]
  | Except.ok xs =>
    let prediction := model.cls xs
    let probabilities := model.proba xs
    let churn_probability := probabilities.2
    let risk_level := riskLevel churn_probability
    [("prediction", PyVal.int prediction),
     ("churn_probability", PyVal.num churn_probability),
     ("no_churn_probability", PyVal.num probabilities.1),
     ("risk_level", PyVal.str risk_level),
     ("prediction_label", PyVal.str (if prediction = 1 then "Churn" else "No Churn"))]

/-- 0/1 indicator of a boolean condition, as numpy evaluates arithmetic on a
comparison result such as `0.3 * (tenure < 6)`. -/
def indicator (b : Prop) [Decidable b] : ℚ :=
  if b then 1 else 0

/-- One per-row bundle of pseudo-random draws consumed by
`generate_synthetic_data` (`train_churn_model.py` lines 22-31, 61): each field
is the stream of values produced by the corresponding numpy call, indexed by
row.  `label_u` is the uniform [0,1) draw that `np.random.binomial(1, p)`
compares against `p`. -/
structure ChurnDraws where
  age : ℕ → ℚ
  tenure : ℕ → ℚ
  monthly : ℕ → ℚ
  noise : ℕ → ℚ
  contract : ℕ → ℚ
  payment : ℕ → ℚ
  internet : ℕ → ℚ
  tech : ℕ → ℚ
  label_u : ℕ → ℚ

/-- One row of the synthetic churn DataFrame built in
`generate_synthetic_data` (`train_churn_model.py` lines 34-43, 62). -/
structure ChurnRow where
  age : ℚ
  tenure : ℚ
  monthly_charges : ℚ
  total_charges : ℚ
  contract_type : ℚ
  payment_method : ℚ
  internet_service : ℚ
  tech_support : ℚ
  churn : ℕ

/-- The per-row computation of `generate_synthetic_data`
(`train_churn_model.py` lines 22-62): features, the `total_charges` floor at
20, the affine churn-probability formula, its clip to [0,1], and the
Bernoulli label draw. -/
def churnRow (d : ChurnDraws) (i : ℕ) : ChurnRow :=
  let age := d.age i
  let tenure := d.tenure i
  let monthly_charges := d.monthly i
  let total_charges := max (monthly_charges * tenure + d.noise i) 20
  let contract_type := d.contract i
  let payment_method := d.payment i
  let internet_service := d.internet i
  let tech_support := d.tech i
  let churn_probability :=
    1/10
    + 3/10 * indicator (tenure < 6)
    + 2/10 * indicator (contract_type = 0)
    + 15/100 * indicator (payment_method = 0)
    + 1/10 * indicator (monthly_charges > 80)
    + 1/10 * indicator (age < 30)
    - 15/100 * indicator (tech_support = 1)
    + 1/10 * indicator (internet_service = 1)
  let churn_probability := min (max churn_probability 0) 1
  let churn := if d.label_u i < churn_probability then 1 else 0
  { age := age, tenure := tenure, monthly_charges := monthly_charges,
    total_charges := total_charges, contract_type := contract_type,
    payment_method := payment_method, internet_service := internet_service,
    tech_support := tech_support, churn := churn }

/-- The body of `generate_synthetic_data` over an arbitrary draw stream.  A
negative sample count makes the first `np.random.randint(18, 81, n_samples)`
raise `ValueError: negative dimensions are not allowed`; any non-negative
count yields that many rows. -/
def generate_synthetic_data_with (d : ChurnDraws) (n : ℤ) :
    Except String (List ChurnRow) :=
  if n < 0 then Except.error "negative dimensions are not allowed"
  else Except.ok ((List.range n.toNat).map (churnRow d))

end Churn

namespace Price

/-- One per-row bundle of pseudo-random draws consumed by
`generate_sample_data` (`train_model.py` lines 20-23, 37). -/
structure PriceDraws where
  bedrooms : ℕ → ℚ
  bathrooms : ℕ → ℚ
  sqft : ℕ → ℚ
  hage : ℕ → ℚ
  noise : ℕ → ℚ

/-- One row of the synthetic house DataFrame built in `generate_sample_data`
(`train_model.py` lines 43-49). -/
structure PriceRow where
  bedrooms : ℚ
  bathrooms : ℚ
  sqft : ℚ
  age : ℚ
  price : ℚ

/-- The per-row computation of `generate_sample_data` (`train_model.py`
lines 20-40): the linear price formula with noise and the
`np.maximum(prices, 50000)` floor. -/
def priceRow (d : PriceDraws) (i : ℕ) : PriceRow :=
  let bedrooms := d.bedrooms i
  let bathrooms := d.bathrooms i
  let sqft := d.sqft i
  let age := d.hage i
  let base_price : ℚ := 50000
  let price_per_bedroom : ℚ := 25000
  let price_per_bathroom : ℚ := 15000
  let price_per_sqft : ℚ := 100
  let age_depreciation : ℚ := 1000
  let prices := base_price + bedrooms * price_per_bedroom
    + bathrooms * price_per_bathroom + sqft * price_per_sqft
    - age * age_depreciation + d.noise i
  let prices := max prices 50000
  { bedrooms := bedrooms, bathrooms := bathrooms, sqft := sqft,
    age := age, price := prices }

/-- The body of `generate_sample_data` over an arbitrary draw stream; same
negative-count error behaviour from `np.random.randint` as the churn
variant. -/
def generate_sample_data_with (d : PriceDraws) (n : ℤ) :
    Except String (List PriceRow) :=
  if n < 0 then Except.error "negative dimensions are not allowed"
  else Except.ok ((List.range n.toNat).map (priceRow d))

end Price

/-- Model of the numpy Mersenne-Twister draw stream after `np.random.seed`:
the library is not part of the repository, so the exact values are abstracted
by a deterministic integer hash of (seed, row index, call tag); what matters
for the claims is that the stream is a pure function of the seed. -/
def npHash (seed i tag : ℕ) : ℕ :=
  (seed * 2654435761 + i * 40503 + tag * 2246822519 + 12345) % 4294967296

/-- A modelled uniform [0,1) draw derived from `npHash`. -/
def npUnit (seed i tag : ℕ) : ℚ :=
  (npHash seed i tag % 1000 : ℕ) / 1000

namespace Churn

/-- The concrete draw streams produced by the numpy calls of
`generate_synthetic_data` after `np.random.seed(seed)`: `randint` ranges,
`uniform(20, 120)`, `normal(0, 100)` noise, the weighted `choice` columns and
the Bernoulli uniforms, each a pure function of the seed (stream values
modelled by `npHash`/`npUnit`). -/
def churnDrawsOfSeed (seed : ℕ) : ChurnDraws :=
  { age := fun i => (18 + npHash seed i 0 % 63 : ℕ)
    tenure := fun i => (1 + npHash seed i 1 % 72 : ℕ)
    monthly := fun i => 20 + 100 * npUnit seed i 2
    noise := fun i => 300 * npUnit seed i 3 - 150
    contract := fun i =>
      if npUnit seed i 4 < 1/2 then 0 else if npUnit seed i 4 < 8/10 then 1 else 2
    payment := fun i =>
      if npUnit seed i 5 < 4/10 then 0 else if npUnit seed i 5 < 6/10 then 1
      else if npUnit seed i 5 < 8/10 then 2 else 3
    internet := fun i =>
      if npUnit seed i 6 < 4/10 then 0 else if npUnit seed i 6 < 8/10 then 1 else 2
    tech := fun i => if npUnit seed i 7 < 6/10 then 0 else 1
    label_u := fun i => npUnit seed i 8 }

/-- `generate_synthetic_data(n_samples)` from `train_churn_model.py` lines
17-64.  The function receives the ambient numpy global-generator state `g`
(an arbitrary natural) and immediately overwrites it via `np.random.seed(42)`,
so the draws depend only on the hard-coded seed 42 and the output ignores
`g`. -/
def generate_synthetic_data (g : ℕ) (n : ℤ) : Except String (List ChurnRow) :=
  let _ambient := g
  generate_synthetic_data_with (churnDrawsOfSeed 42) n

end Churn

namespace Price

/-- The concrete draw streams produced by the numpy calls of
`generate_sample_data` after `np.random.seed(seed)`: `randint` ranges for
bedrooms/bathrooms/sqft/age and `normal(0, 20000)` noise, each a pure
function of the seed (stream values modelled by `npHash`/`npUnit`). -/
def priceDrawsOfSeed (seed : ℕ) : PriceDraws :=
  { bedrooms := fun i => (1 + npHash seed i 0 % 5 : ℕ)
    bathrooms := fun i => (1 + npHash seed i 1 % 3 : ℕ)
    sqft := fun i => (800 + npHash seed i 2 % 3200 : ℕ)
    hage := fun i => (npHash seed i 3 % 50 : ℕ)
    noise := fun i => 60000 * npUnit seed i 4 - 30000 }

/-- `generate_sample_data(n_samples)` from `train_model.py` lines 15-51, with
the ambient numpy global-generator state `g` overwritten by
`np.random.seed(42)` exactly as in the churn variant. -/
def generate_sample_data (g : ℕ) (n : ℤ) : Except String (List PriceRow) :=
  let _ambient := g
  generate_sample_data_with (priceDrawsOfSeed 42) n

end Price

namespace Price

/-- The metadata document written by `train_model.py` as `model_info.json`
(`model_info`, lines 100-121). -/
structure PriceInfo where
  model_type : String
  features : List String
  feature_descriptions : List (String × String)
  target : String
  target_description : String
  r2_score : ℚ
  rmse : ℚ
  sample_input : List (String × ℚ)

end Price

/-- A value stored in an artifact file on disk: a pickled model, a pickled
churn metadata dict, or the JSON house-price metadata document. -/
inductive Stored where
  | rf (m : Churn.RFModel)
  | churnInfo (i : Churn.ChurnInfo)
  | lr (predict : List ℚ → ℚ)
  | priceInfo (i : Price.PriceInfo)

/-- The working directory as a map from file name to stored content; `none`
means the file does not exist. -/
def FS : Type := String → Option Stored

/-- Writing a file wholesale (`joblib.dump` / `json.dump` to a fresh file). -/
def fsWrite (fs : FS) (path : String) (v : Stored) : FS :=
  fun p => if p = path then some v else fs p

/-- `joblib.load(path)` / `open(path)`: returns the stored value, or raises
`FileNotFoundError` (here an `Except.error` carrying the file name) when the
file does not exist. -/
def fsRead (fs : FS) (path : String) : Except String Stored :=
  match fs path with
  | some v => Except.ok v
  | none => Except.error path

namespace Churn

/-- Path of the pickled churn model (`train_churn_model.py` line 132). -/
def modelPath : String := "customer_churn_model.pkl"

/-- Path of the pickled churn metadata (`train_churn_model.py` line 144). -/
def infoPath : String := "model_info.pkl"

/-- The artifact-writing tail of `train_model` (`train_churn_model.py` lines
131-145): two sequential wholesale dumps, the model first, the metadata
second.  `io k` tells whether the k-th write succeeds (disk I/O can fail);
a failed write raises, leaving the files already written in place, and the
raised message is returned as the second component. -/
def save_artifacts (fs : FS) (m : RFModel) (info : ChurnInfo)
    (io : ℕ → Bool) : FS × Option String :=
  if io 0 then
    let fs1 := fsWrite fs modelPath (Stored.rf m)
    if io 1 then
      (fsWrite fs1 infoPath (Stored.churnInfo info), none)
    else
      (fs1, some "I/O failure while writing model_info.pkl")
  else
    (fs, some "I/O failure while writing customer_churn_model.pkl")

/-- Result of `load_model` in `test_churn_model.py` lines 14-23: either both
artifacts, or the caught `FileNotFoundError` reported with the fixed
run-training-first instruction and the sentinel `(None, None)` return that
the caller can test for. -/
inductive LoadResult where
  | ok (model info : Stored)
  | notFound (missing : String) (instruction : String)

/-- The instruction printed by `load_model` when an artifact is missing
(`test_churn_model.py` line 22). -/
def trainFirstInstruction : String :=
  "Please run python train_churn_model.py first to create the model."

/-- `load_model` from `test_churn_model.py` lines 14-23: load the model
pickle then the metadata pickle inside one try block; a missing file is
caught and reported, never propagated. -/
def load_model (fs : FS) : LoadResult :=
  match fsRead fs modelPath with
  | Except.error e => LoadResult.notFound e trainFirstInstruction
  | Except.ok m =>
    match fsRead fs infoPath with
    | Except.error e => LoadResult.notFound e trainFirstInstruction
    | Except.ok i => LoadResult.ok m i

end Churn

namespace Price

/-- Path of the pickled house-price model (`train_model.py` line 95). -/
def modelPath : String := "house_price_model.pkl"

/-- Path of the house-price metadata JSON (`train_model.py` line 123). -/
def infoPath : String := "model_info.json"

/-- The artifact-writing tail of `train_model` (`train_model.py` lines
94-126): `joblib.dump` of the model then `json.dump` of the metadata, with
the same per-write failure model as the churn variant. -/
def save_artifacts (fs : FS) (predict : List ℚ → ℚ) (info : PriceInfo)
    (io : ℕ → Bool) : FS × Option String :=
  if io 0 then
    let fs1 := fsWrite fs modelPath (Stored.lr predict)
    if io 1 then
      (fsWrite fs1 infoPath (Stored.priceInfo info), none)
    else
      (fs1, some "I/O failure while writing model_info.json")
  else
    (fs, some "I/O failure while writing house_price_model.pkl")

/-- Result of `load_model` in `test_model.py` lines 10-20, analogous to the
churn loader. -/
inductive LoadResult where
  | ok (model info : Stored)
  | notFound (missing : String) (instruction : String)

/-- The instruction printed by `load_model` when an artifact is missing
(`test_model.py` line 19). -/
def trainFirstInstruction : String :=
  "Please run python train_model.py first to create the model."

/-- `load_model` from `test_model.py` lines 10-20: load the model pickle
then the metadata JSON inside one try block; a missing file is caught and
reported, never propagated. -/
def load_model (fs : FS) : LoadResult :=
  match fsRead fs modelPath with
  | Except.error e => LoadResult.notFound e trainFirstInstruction
  | Except.ok m =>
    match fsRead fs infoPath with
    | Except.error e => LoadResult.notFound e trainFirstInstruction
    | Except.ok i => LoadResult.ok m i

end Price

/-- A concrete stand-in fitted classifier used to instantiate theorems on
closed inputs: it always predicts class 1 with probability 3/4. -/
def demoModel : Churn.RFModel :=
  { cls := fun _ => 1, proba := fun _ => (1/4, 3/4) }

/-- A concrete metadata record (two-feature schema) used to instantiate
theorems on closed inputs. -/
def demoInfo : Churn.ChurnInfo :=
  { feature_names := ["age", "tenure"], model_type := "RandomForestClassifier",
    accuracy := 9/10, feature_importance := [] }

/-- A concrete house-price metadata record used to instantiate theorems on
closed inputs. -/
def demoPriceInfo : Price.PriceInfo :=
  { model_type := "LinearRegression", features := ["bedrooms", "bathrooms", "sqft", "age"],
    feature_descriptions := [], target := "price", target_description := "House price in USD",
    r2_score := 87/100, rmse := 20000, sample_input := [("bedrooms", 3)] }

/-- Filtering with pointwise-equal predicates (equal on the members of the
list) gives equal results. -/
theorem filter_ext_mem {α : Type} {l : List α} {p q : α → Bool}
    (h : ∀ a ∈ l, p a = q a) : l.filter p = l.filter q := by
  induction l with
  | nil => rfl
  | cons a l ih =>
    simp only [List.filter_cons]
    rw [h a (by simp), ih (fun b hb => h b (by simp [hb]))]

/-- filterMap with pointwise-equal functions (equal on the members of the
list) gives equal results. -/
theorem filterMap_ext_mem {α β : Type} {l : List α} {f g : α → Option β}
    (h : ∀ a ∈ l, f a = g a) : l.filterMap f = l.filterMap g := by
  induction l with
  | nil => rfl
  | cons a l ih =>
    simp only [List.filterMap_cons]
    rw [h a (by simp), ih (fun b hb => h b (by simp [hb]))]

/-- Column selection only looks a mapping up through `lookupVal`, so two
mappings agreeing on every requested column select identically. -/
theorem reindex_ext_mem {d1 d2 : List (String × ℚ)} {cols : List String}
    (h : ∀ c ∈ cols, lookupVal d1 c = lookupVal d2 c) :
    reindex cols d1 = reindex cols d2 := by
  have h1 : cols.filter (fun c => (lookupVal d1 c).isNone)
      = cols.filter (fun c => (lookupVal d2 c).isNone) :=
    filter_ext_mem (fun a ha => by rw [h a ha])
  have h2 : cols.filterMap (lookupVal d1) = cols.filterMap (lookupVal d2) :=
    filterMap_ext_mem (fun a ha => h a ha)
  unfold reindex
  rw [h1, h2]

/-- Permuting an association list with no duplicate keys does not change any
lookup. -/
theorem lookupVal_eq_of_perm :
    ∀ {d1 d2 : List (String × ℚ)}, d1.Perm d2 →
      (d1.map Prod.fst).Nodup → ∀ k, lookupVal d1 k = lookupVal d2 k := by
  intro d1 d2 h
  induction h with
  | nil => intro _ _; rfl
  | cons x h ih =>
    intro hn k
    simp only [List.map_cons, List.nodup_cons] at hn
    by_cases hk : k = x.1
    · simp [lookupVal, hk]
    · simp [lookupVal, hk, ih hn.2 k]
  | swap x y l =>
    intro hn k
    simp only [List.map_cons, List.nodup_cons, List.mem_cons] at hn
    have hxy : ¬ y.1 = x.1 := fun he => hn.1 (Or.inl he)
    have hyx : ¬ x.1 = y.1 := fun he => hxy he.symm
    by_cases hky : k = y.1
    · subst hky
      simp [lookupVal, hxy]
    · by_cases hkx : k = x.1
      · subst hkx
        simp [lookupVal, hyx]
      · simp [lookupVal, hky, hkx]
  | trans h12 h23 ih12 ih23 =>
    intro hn k
    rw [ih12 hn k, ih23 (((h12.map Prod.fst).nodup_iff).mp hn) k]

/-- Claim C1: the derived risk label of a classifier prediction is determined
exactly by the fixed thresholds on the positive-class probability p:
"High" iff p > 0.7, "Medium" iff 0.3 < p ≤ 0.7, "Low" iff p ≤ 0.3; in
particular p = 0.7 maps to "Medium" and p = 0.3 maps to "Low"; and every
successful `predict_churn` result carries exactly this label for its
positive-class probability. -/
theorem c1_risk_thresholds :
    (∀ p : ℚ, Churn.riskLevel p = "High" ↔ 7/10 < p)
    ∧ (∀ p : ℚ, Churn.riskLevel p = "Medium" ↔ (3/10 < p ∧ p ≤ 7/10))
    ∧ (∀ p : ℚ, Churn.riskLevel p = "Low" ↔ p ≤ 3/10)
    ∧ Churn.riskLevel (7/10) = "Medium"
    ∧ Churn.riskLevel (3/10) = "Low"
    ∧ (∀ (model : Churn.RFModel) (info : Churn.ChurnInfo) customer xs,
        reindex info.feature_names customer = Except.ok xs →
        ("risk_level", PyVal.str (Churn.riskLevel (model.proba xs).2))
          ∈ Churn.predict_churn model info customer) := by
  refine ⟨?_, ?_, ?_, ?_, ?_, ?_⟩
  · intro p
    unfold Churn.riskLevel
    split_ifs with h1 h2
    · exact iff_of_true rfl h1
    · exact iff_of_false (by decide) h1
    · exact iff_of_false (by decide) h1
  · intro p
    unfold Churn.riskLevel
    split_ifs with h1 h2
    · exact iff_of_false (by decide) (fun h => absurd h1 (not_lt.mpr h.2))
    · exact iff_of_true rfl ⟨h2, le_of_not_lt h1⟩
    · exact iff_of_false (by decide) (fun h => h2 h.1)
  · intro p
    unfold Churn.riskLevel
    split_ifs with h1 h2
    · exact iff_of_false (by decide)
        (fun h => absurd h1 (not_lt.mpr (h.trans (by norm_num))))
    · exact iff_of_false (by decide) (not_le.mpr h2)
    · exact iff_of_true rfl (le_of_not_lt h2)
  · norm_num [Churn.riskLevel]
  · norm_num [Churn.riskLevel]
  · intro model info customer xs h
    unfold Churn.predict_churn
    rw [h]
    simp

/-- Witness for C1: a concrete successful prediction whose risk label is the
threshold image of its probability 3/4, namely "High". -/
theorem c1_risk_thresholds_witness :
    ("risk_level", PyVal.str "High")
      ∈ Churn.predict_churn demoModel demoInfo [("age", 25), ("tenure", 3)] := by
  have h := c1_risk_thresholds.2.2.2.2.2 demoModel demoInfo
    [("age", 25), ("tenure", 3)] [25, 3] rfl
  have h2 : Churn.riskLevel ((demoModel.proba [25, 3]).2) = "High" := by
    norm_num [demoModel, Churn.riskLevel]
  exact h2 ▸ h

/-- Claim C9: the result of `predict_churn` does not depend on the order of
the name-value pairs of the input mapping: permuted mappings with unique
names give identical results. -/
theorem c9_predict_order_independent :
    ∀ (model : Churn.RFModel) (info : Churn.ChurnInfo)
      (d1 d2 : List (String × ℚ)),
      d1.Perm d2 → (d1.map Prod.fst).Nodup →
      Churn.predict_churn model info d1 = Churn.predict_churn model info d2 := by
  intro model info d1 d2 hp hn
  unfold Churn.predict_churn
  rw [reindex_ext_mem (fun c _ => lookupVal_eq_of_perm hp hn c)]

/-- Witness for C9: swapping the two entries of a concrete customer mapping
leaves the prediction result unchanged. -/
theorem c9_predict_order_independent_witness :
    Churn.predict_churn demoModel demoInfo [("age", 25), ("tenure", 3)]
      = Churn.predict_churn demoModel demoInfo [("tenure", 3), ("age", 25)] :=
  c9_predict_order_independent demoModel demoInfo _ _
    (List.Perm.swap ("tenure", 3) ("age", 25) []) (by decide)

/-- Claim C10: `predict_churn` always returns a dictionary and never
propagates an exception: the result keys are either exactly
prediction, churn_probability, no_churn_probability, risk_level,
prediction_label, or exactly the single key error. -/
theorem c10_predict_churn_result_shape :
    ∀ (model : Churn.RFModel) (info : Churn.ChurnInfo) customer,
      ((Churn.predict_churn model info customer).map Prod.fst
        = ["prediction", "churn_probability", "no_churn_probability",
           "risk_level", "prediction_label"])
      ∨ ((Churn.predict_churn model info customer).map Prod.fst = ["error"]) := by
  intro model info customer
  cases hr : reindex info.feature_names customer with
  | error e =>
    right
    simp [Churn.predict_churn, hr]
  | ok xs =>
    left
    simp [Churn.predict_churn, hr]

/-- Counterexample to C2 as stated: a customer mapping containing the name
"extra", which is not in the trained schema, is not rejected — the call
succeeds and returns the full success dictionary, so the extra name is
silently dropped rather than failing with a SchemaMismatch error. -/
theorem c2_extra_name_not_rejected :
    (Churn.predict_churn demoModel demoInfo
        [("age", 25), ("tenure", 3), ("extra", 1)]).map Prod.fst
      = ["prediction", "churn_probability", "no_churn_probability",
         "risk_level", "prediction_label"]
    ∧ demoInfo.feature_names.contains "extra" = false :=
  ⟨rfl, rfl⟩

/-- Claim C2 amended: a name in the mapping that is not in the trained schema
is silently ignored (adding such a binding never changes the result), and a
required schema name absent from the mapping makes the call return the
error dictionary (a dict with the single key error) rather than a result. -/
theorem c2_amended_schema_handling :
    (∀ (model : Churn.RFModel) (info : Churn.ChurnInfo) (k : String) (v : ℚ) d,
        k ∉ info.feature_names →
        Churn.predict_churn model info ((k, v) :: d)
          = Churn.predict_churn model info d)
    ∧ (∀ (model : Churn.RFModel) (info : Churn.ChurnInfo) d,
        (∃ c ∈ info.feature_names, lookupVal d c = none) →
        (Churn.predict_churn model info d).map Prod.fst = ["error"]) := by
  constructor
  · intro model info k v d hk
    have hre : reindex info.feature_names ((k, v) :: d)
        = reindex info.feature_names d :=
      reindex_ext_mem (fun c hc => by
        simp [lookupVal, show ¬ c = k from fun he => hk (he ▸ hc)])
    unfold Churn.predict_churn
    rw [hre]
  · intro model info d hex
    obtain ⟨c, hc, hnone⟩ := hex
    have hmem : c ∈ info.feature_names.filter (fun c => (lookupVal d c).isNone) :=
      List.mem_filter.mpr ⟨hc, by simp [hnone]⟩
    have hne : info.feature_names.filter (fun c => (lookupVal d c).isNone) ≠ [] :=
      List.ne_nil_of_mem hmem
    unfold Churn.predict_churn reindex
    rw [if_neg hne]
    rfl

/-- Witness for the amended C2: adding the extra binding to a concrete
mapping leaves the result unchanged, and dropping the required name tenure
from the mapping yields the error dictionary. -/
theorem c2_amended_schema_handling_witness :
    Churn.predict_churn demoModel demoInfo [("extra", 1), ("age", 25), ("tenure", 3)]
      = Churn.predict_churn demoModel demoInfo [("age", 25), ("tenure", 3)]
    ∧ (Churn.predict_churn demoModel demoInfo [("age", 25)]).map Prod.fst
      = ["error"] :=
  ⟨c2_amended_schema_handling.1 demoModel demoInfo "extra" 1 _ (by decide),
   c2_amended_schema_handling.2 demoModel demoInfo _ ⟨"tenure", by decide, rfl⟩⟩

/-- Claim C3: if either the model file or the metadata file is missing,
`load_model` (in both pipelines) returns the caught-not-found report carrying
the run-training-first instruction — a recoverable value the caller can
detect — instead of propagating a crash. -/
theorem c3_load_missing_reports_notfound :
    (∀ fs : FS, fs Churn.modelPath = none ∨ fs Churn.infoPath = none →
      ∃ missing, Churn.load_model fs
        = Churn.LoadResult.notFound missing Churn.trainFirstInstruction)
    ∧ (∀ fs : FS, fs Price.modelPath = none ∨ fs Price.infoPath = none →
      ∃ missing, Price.load_model fs
        = Price.LoadResult.notFound missing Price.trainFirstInstruction) := by
  constructor
  · intro fs h
    cases hm : fs Churn.modelPath with
    | none =>
      exact ⟨Churn.modelPath, by simp [Churn.load_model, fsRead, hm]⟩
    | some v =>
      have hi : fs Churn.infoPath = none := by
        rcases h with h | h
        · rw [hm] at h; exact absurd h (by simp)
        · exact h
      exact ⟨Churn.infoPath, by simp [Churn.load_model, fsRead, hm, hi]⟩
  · intro fs h
    cases hm : fs Price.modelPath with
    | none =>
      exact ⟨Price.modelPath, by simp [Price.load_model, fsRead, hm]⟩
    | some v =>
      have hi : fs Price.infoPath = none := by
        rcases h with h | h
        · rw [hm] at h; exact absurd h (by simp)
        · exact h
      exact ⟨Price.infoPath, by simp [Price.load_model, fsRead, hm, hi]⟩

/-- Witness for C3: loading from an empty working directory reports the
not-found condition with the instruction to run training first, in both
pipelines. -/
theorem c3_load_missing_reports_notfound_witness :
    (∃ missing, Churn.load_model (fun _ => none)
      = Churn.LoadResult.notFound missing Churn.trainFirstInstruction)
    ∧ (∃ missing, Price.load_model (fun _ => none)
      = Price.LoadResult.notFound missing Price.trainFirstInstruction) :=
  ⟨c3_load_missing_reports_notfound.1 (fun _ => none) (Or.inl rfl),
   c3_load_missing_reports_notfound.2 (fun _ => none) (Or.inl rfl)⟩

/-- Counterexample to C4 as stated: n = 0 satisfies n ≤ 0, yet neither
synthesizer rejects it — both return an empty dataset without error. -/
theorem c4_zero_samples_not_rejected :
    ((0 : ℤ) ≤ 0)
    ∧ Churn.generate_synthetic_data 0 0 = Except.ok []
    ∧ Price.generate_sample_data 0 0 = Except.ok [] :=
  ⟨le_refl 0, rfl, rfl⟩

/-- Claim C4 amended: the synthesizers reject exactly the negative sample
counts (the error raised by the underlying numpy array allocation);
n = 0 is accepted and yields an empty dataset, and a negative n is the only
error condition. -/
theorem c4_amended_negative_n_only_error :
    ∀ (g : ℕ) (n : ℤ),
      ((∃ e, Churn.generate_synthetic_data g n = Except.error e) ↔ n < 0)
      ∧ ((∃ e, Price.generate_sample_data g n = Except.error e) ↔ n < 0) := by
  intro g n
  constructor
  · by_cases hn : n < 0 <;>
      simp [Churn.generate_synthetic_data, Churn.generate_synthetic_data_with, hn]
  · by_cases hn : n < 0 <;>
      simp [Price.generate_sample_data, Price.generate_sample_data_with, hn]

/-- Witness for the amended C4: n = -1 is rejected by both synthesizers. -/
theorem c4_amended_negative_n_only_error_witness :
    (∃ e, Churn.generate_synthetic_data 0 (-1) = Except.error e)
    ∧ (∃ e, Price.generate_sample_data 0 (-1) = Except.error e) :=
  ⟨(c4_amended_negative_n_only_error 0 (-1)).1.mpr (by decide),
   (c4_amended_negative_n_only_error 0 (-1)).2.mpr (by decide)⟩

/-- Claim C5: regardless of the noise draws, every generated churn row has
total_charges at least 20 and every generated house row has price at least
50000 — the floors applied by the synthesizers hold for arbitrary draw
streams and any sample count. -/
theorem c5_generation_floors :
    (∀ (d : Churn.ChurnDraws) (n : ℤ) rows,
      Churn.generate_synthetic_data_with d n = Except.ok rows →
      ∀ r ∈ rows, 20 ≤ r.total_charges)
    ∧ (∀ (d : Price.PriceDraws) (n : ℤ) rows,
      Price.generate_sample_data_with d n = Except.ok rows →
      ∀ r ∈ rows, 50000 ≤ r.price) := by
  constructor
  · intro d n rows h r hr
    unfold Churn.generate_synthetic_data_with at h
    by_cases hn : n < 0
    · rw [if_pos hn] at h; cases h
    · rw [if_neg hn] at h
      injection h with h
      subst h
      obtain ⟨i, _, rfl⟩ := List.mem_map.mp hr
      exact le_max_right _ _
  · intro d n rows h r hr
    unfold Price.generate_sample_data_with at h
    by_cases hn : n < 0
    · rw [if_pos hn] at h; cases h
    · rw [if_neg hn] at h
      injection h with h
      subst h
      obtain ⟨i, _, rfl⟩ := List.mem_map.mp hr
      exact le_max_right _ _

/-- Witness for C5: the first row generated from the seed-42 streams has
total_charges at least 20, and the first house row has price at least
50000. -/
theorem c5_generation_floors_witness :
    20 ≤ (Churn.churnRow (Churn.churnDrawsOfSeed 42) 0).total_charges
    ∧ 50000 ≤ (Price.priceRow (Price.priceDrawsOfSeed 42) 0).price :=
  ⟨c5_generation_floors.1 (Churn.churnDrawsOfSeed 42) 1 _ rfl _
     (List.mem_singleton.mpr rfl),
   c5_generation_floors.2 (Price.priceDrawsOfSeed 42) 1 _ rfl _
     (List.mem_singleton.mpr rfl)⟩

/-- Claim C6: the synthesizers are deterministic — the generated dataset is a
pure function of the (hard-coded) seed and n: the ambient state of the global
generator before the call has no influence, because the call starts by
reseeding, so two calls with the same n produce identical datasets, rows,
order and labels. -/
theorem c6_generation_deterministic :
    ∀ (g1 g2 : ℕ) (n : ℤ),
      Churn.generate_synthetic_data g1 n = Churn.generate_synthetic_data g2 n
      ∧ Price.generate_sample_data g1 n = Price.generate_sample_data g2 n :=
  fun _ _ _ => ⟨rfl, rfl⟩

/-- Claim C7: loading what save wrote yields the saved model and a metadata
record with the identical feature-name sequence and identical performance
metrics, for both pipelines. -/
theorem c7_save_load_roundtrip :
    ∀ (fs : FS) (m : Churn.RFModel) (info : Churn.ChurnInfo)
      (lrPredict : List ℚ → ℚ) (pinfo : Price.PriceInfo),
      (∃ info2,
        Churn.load_model ((Churn.save_artifacts fs m info (fun _ => true)).1)
          = Churn.LoadResult.ok (Stored.rf m) (Stored.churnInfo info2)
        ∧ info2.feature_names = info.feature_names
        ∧ info2.accuracy = info.accuracy)
      ∧ (∃ pinfo2,
        Price.load_model ((Price.save_artifacts fs lrPredict pinfo (fun _ => true)).1)
          = Price.LoadResult.ok (Stored.lr lrPredict) (Stored.priceInfo pinfo2)
        ∧ pinfo2.features = pinfo.features
        ∧ pinfo2.r2_score = pinfo.r2_score
        ∧ pinfo2.rmse = pinfo.rmse) :=
  fun _ _ info _ pinfo =>
    ⟨⟨info, rfl, rfl, rfl⟩, ⟨pinfo, rfl, rfl, rfl, rfl⟩⟩

/-- Counterexample to C8 as stated: when the first write succeeds and the
second fails, save reports a failure yet leaves the model file on disk
without the metadata file — a partial-artifact post-state. -/
theorem c8_failed_save_leaves_partial_state :
    ((Churn.save_artifacts (fun _ => none) demoModel demoInfo
        (fun k => k == 0)).2).isSome = true
    ∧ ((Churn.save_artifacts (fun _ => none) demoModel demoInfo
        (fun k => k == 0)).1 Churn.modelPath).isSome = true
    ∧ (Churn.save_artifacts (fun _ => none) demoModel demoInfo
        (fun k => k == 0)).1 Churn.infoPath = none :=
  ⟨rfl, rfl, rfl⟩

/-- Claim C8 amended: a completed save (both writes succeed) always leaves
both files present and reports no error, in both pipelines; but when the
second write fails, the model file is present while the metadata file is
untouched, so a failed save can leave a partial-artifact state. -/
theorem c8_amended_save_pairing :
    (∀ (fs : FS) (m : Churn.RFModel) (info : Churn.ChurnInfo) (io : ℕ → Bool),
      io 0 = true → io 1 = true →
      (Churn.save_artifacts fs m info io).2 = none
      ∧ ((Churn.save_artifacts fs m info io).1 Churn.modelPath).isSome = true
      ∧ ((Churn.save_artifacts fs m info io).1 Churn.infoPath).isSome = true)
    ∧ (∀ (fs : FS) (m : Churn.RFModel) (info : Churn.ChurnInfo) (io : ℕ → Bool),
      io 0 = true → io 1 = false →
      ((Churn.save_artifacts fs m info io).2).isSome = true
      ∧ ((Churn.save_artifacts fs m info io).1 Churn.modelPath).isSome = true
      ∧ (Churn.save_artifacts fs m info io).1 Churn.infoPath = fs Churn.infoPath)
    ∧ (∀ (fs : FS) (lrPredict : List ℚ → ℚ) (pinfo : Price.PriceInfo) (io : ℕ → Bool),
      io 0 = true → io 1 = true →
      (Price.save_artifacts fs lrPredict pinfo io).2 = none
      ∧ ((Price.save_artifacts fs lrPredict pinfo io).1 Price.modelPath).isSome = true
      ∧ ((Price.save_artifacts fs lrPredict pinfo io).1 Price.infoPath).isSome = true) := by
  refine ⟨?_, ?_, ?_⟩
  · intro fs m info io h0 h1
    simp [Churn.save_artifacts, fsWrite, h0, h1, Churn.modelPath, Churn.infoPath]
  · intro fs m info io h0 h1
    simp [Churn.save_artifacts, fsWrite, h0, h1, Churn.modelPath, Churn.infoPath]
  · intro fs lrPredict pinfo io h0 h1
    simp [Price.save_artifacts, fsWrite, h0, h1, Price.modelPath, Price.infoPath]

/-- Witness for the amended C8: a concrete all-successful save leaves both
churn artifact files present with no reported error. -/
theorem c8_amended_save_pairing_witness :
    (Churn.save_artifacts (fun _ => none) demoModel demoInfo (fun _ => true)).2 = none
    ∧ ((Churn.save_artifacts (fun _ => none) demoModel demoInfo
        (fun _ => true)).1 Churn.modelPath).isSome = true
    ∧ ((Churn.save_artifacts (fun _ => none) demoModel demoInfo
        (fun _ => true)).1 Churn.infoPath).isSome = true :=
  c8_amended_save_pairing.1 (fun _ => none) demoModel demoInfo (fun _ => true) rfl rfl

end MLDash
